import Mathlib

/-!
Verification of the animation rendering pipeline of `src/visualization/render.py`.

The embedding models numpy float arrays over the rationals, the filesystem and
the external encoder as an explicit event trace, and the matplotlib draw calls
of `update_frame` as a pure per-frame draw state.  Figure-layout-only arguments
of the source (`titles`, `fig_title`, `overlay`, camera handlers) are omitted:
they influence subplot layout only, never frame count, file names, colors or
the time text.

Functions imported by `render.py` from modules that are not part of the source
tree (`common.utils`, `fk`, the `quaternion` package) are either modelled from
the spec (when the spec pins down their behaviour) or taken as parameters (when
their numerics, e.g. an SVD or the exponential map, are irrelevant to the
claims and not representable exactly over the rationals).  Each such definition
says so in its doc comment.
-/

namespace RenderPy

/-- A 3D point, mirroring one row of a numpy `(…, 3)` array. -/
def Vec3 : Type := ℚ × ℚ × ℚ

instance : DecidableEq Vec3 := by unfold Vec3; infer_instance

instance : Inhabited Vec3 := ⟨((0 : ℚ), (0 : ℚ), (0 : ℚ))⟩

/-- A 3×3 matrix (row major), mirroring one `(3, 3)` block of a numpy array. -/
structure Mat3 where
  m00 : ℚ
  m01 : ℚ
  m02 : ℚ
  m10 : ℚ
  m11 : ℚ
  m12 : ℚ
  m20 : ℚ
  m21 : ℚ
  m22 : ℚ
deriving DecidableEq

/-- Matrix product. -/
def Mat3.mul (A B : Mat3) : Mat3 :=
  ⟨A.m00 * B.m00 + A.m01 * B.m10 + A.m02 * B.m20,
   A.m00 * B.m01 + A.m01 * B.m11 + A.m02 * B.m21,
   A.m00 * B.m02 + A.m01 * B.m12 + A.m02 * B.m22,
   A.m10 * B.m00 + A.m11 * B.m10 + A.m12 * B.m20,
   A.m10 * B.m01 + A.m11 * B.m11 + A.m12 * B.m21,
   A.m10 * B.m02 + A.m11 * B.m12 + A.m12 * B.m22,
   A.m20 * B.m00 + A.m21 * B.m10 + A.m22 * B.m20,
   A.m20 * B.m01 + A.m21 * B.m11 + A.m22 * B.m21,
   A.m20 * B.m02 + A.m21 * B.m12 + A.m22 * B.m22⟩

/-- Transpose. -/
def Mat3.transpose (A : Mat3) : Mat3 :=
  ⟨A.m00, A.m10, A.m20, A.m01, A.m11, A.m21, A.m02, A.m12, A.m22⟩

/-- Determinant. -/
def Mat3.det (A : Mat3) : ℚ :=
  A.m00 * (A.m11 * A.m22 - A.m12 * A.m21)
    - A.m01 * (A.m10 * A.m22 - A.m12 * A.m20)
    + A.m02 * (A.m10 * A.m21 - A.m11 * A.m20)

/-- The identity matrix. -/
def Mat3.idm : Mat3 := ⟨1, 0, 0, 0, 1, 0, 0, 0, 1⟩

/-- Entrywise difference. -/
def Mat3.sub (A B : Mat3) : Mat3 :=
  ⟨A.m00 - B.m00, A.m01 - B.m01, A.m02 - B.m02,
   A.m10 - B.m10, A.m11 - B.m11, A.m12 - B.m12,
   A.m20 - B.m20, A.m21 - B.m21, A.m22 - B.m22⟩

/-- Squared Frobenius norm (written with products so it evaluates on
concrete inputs). -/
def Mat3.frob2 (A : Mat3) : ℚ :=
  A.m00 * A.m00 + A.m01 * A.m01 + A.m02 * A.m02
    + A.m10 * A.m10 + A.m11 * A.m11 + A.m12 * A.m12
    + A.m20 * A.m20 + A.m21 * A.m21 + A.m22 * A.m22

/-- Validation tolerance 1e-6 of the spec, squared (norms are compared squared
so everything stays inside ℚ). -/
def tol2 : ℚ := (1 / 1000000) * (1 / 1000000)

/-- Modelled from the spec: `common.utils.is_valid_rotmat` is imported by
`render.py` but its module is not in the source tree.  Spec §4.1: a matrix is
valid iff the residual `Mᵗ·M − I` is within 1e-6 (Frobenius norm) of zero and
`det M` is within 1e-6 of +1.  This is the single-matrix check. -/
def isValidRotmat (M : Mat3) : Bool :=
  decide (((M.transpose.mul M).sub Mat3.idm).frob2 ≤ tol2)
    && decide ((M.det - 1) * (M.det - 1) ≤ tol2)

/-- Modelled from the spec: the batch form consumed by `render.py`, which uses
the result as a single boolean over the whole `(-1, n_joints, 3, 3)` array
(all matrices of all frames valid). -/
def is_valid_rotmat (frames : List (List Mat3)) : Bool :=
  frames.all fun fr => fr.all isValidRotmat

/-- The matplotlib default color cycle `plt.rcParams[..].by_key()` read at
module import (`_colors` of render.py line 14). -/
def colorCycle : List String :=
  ["#1f77b4", "#ff7f0e", "#2ca02c", "#d62728", "#9467bd",
   "#8c564b", "#e377c2", "#7f7f7f", "#bcbd22", "#17becf"]

/-- `_colors[2]`, the hard-coded color applied after the cutover frame
(render.py line 356). -/
def postCutoverColor : String := colorCycle.getD 2 ""

/-- The cutover entry for panel `l`: `change_color_after_frame[l]` when the
tuple is given, `None` otherwise. -/
def cutoverEntry (ccaf : Option (List (Option Nat))) (l : Nat) : Option Nat :=
  match ccaf with
  | none => none
  | some cs => cs.getD l none

/-- The color given to every bone segment of panel `l` at frame `num`,
mirroring render.py lines 355-358.  Python truthiness is modelled exactly: the
branch to the post-cutover color is taken only when the tuple is present, the
entry for panel `l` is not `None` AND not `0` (a `0` entry is falsy in
Python), and `num >= entry`. -/
def frameColor (ccaf : Option (List (Option Nat))) (colors : List String)
    (l num : Nat) : String :=
  match cutoverEntry ccaf l with
  | none => colors.getD l ""
  | some c => if c ≠ 0 ∧ c ≤ num then postCutoverColor else colors.getD l ""

/-- Decimal digits of a natural number, most significant first: the digit
list behind Python `str(n)`. -/
def natDigits (n : Nat) : List Nat :=
  if h : n < 10 then [n] else natDigits (n / 10) ++ [n % 10]
termination_by n
decreasing_by
  exact Nat.div_lt_self (by omega) (by omega)

/-- Python `'{:0>4}'.format(j)`: the decimal digits padded on the left with
zeros up to a minimum width of 4. -/
def pad4 (n : Nat) : List Nat :=
  List.replicate (4 - (natDigits n).length) 0 ++ natDigits n

/-- The character of a decimal digit. -/
def digitChar (d : Nat) : Char := Char.ofNat (48 + d)

/-- `'frame_{:0>4}.{}'.format(j, "png")` of render.py line 383. -/
def frameFileName (j : Nat) : String :=
  String.mk ("frame_".data ++ (pad4 j).map digitChar ++ ".png".data)

/-- Python `str.endswith`, written on the character lists so that it reduces
on concrete inputs. -/
def strEnds (s suf : String) : Bool :=
  decide (s.data.drop (s.data.length - suf.data.length) = suf.data)

/-- `os.path.join` restricted to the shapes appearing in render.py. -/
def pathJoin (a b : String) : String :=
  if strEnds a "/" then a ++ b else a ++ "/" ++ b

/-- Reading a digit list back as a number (fold over digits). -/
def decodeDigits (ds : List Nat) : Nat :=
  ds.foldl (fun acc d => acc * 10 + d) 0

theorem decodeDigits_from (a : Nat) :
    ∀ n, (natDigits n).foldl (fun acc d => acc * 10 + d) a
      = a * 10 ^ (natDigits n).length + n := by
  intro n
  induction n using Nat.strong_induction_on generalizing a with
  | _ n ih =>
    by_cases h : n < 10
    · simp [natDigits, h, List.foldl]
    · have hpos : 0 < n := by omega
      have hlt : n / 10 < n := Nat.div_lt_self hpos (by omega)
      rw [natDigits, dif_neg h, List.foldl_append, ih (n / 10) hlt a]
      simp only [List.foldl, List.length_append, List.length_cons, List.length_nil,
        pow_succ, Nat.zero_add]
      ring_nf
      omega

theorem decodeDigits_natDigits (n : Nat) : decodeDigits (natDigits n) = n := by
  have := decodeDigits_from 0 n
  simpa [decodeDigits] using this

theorem decodeDigits_pad4 (n : Nat) : decodeDigits (pad4 n) = n := by
  have hzero : ∀ k ds, List.foldl (fun acc d => acc * 10 + d) 0 (List.replicate k 0 ++ ds)
      = List.foldl (fun acc d => acc * 10 + d) 0 ds := by
    intro k
    induction k with
    | zero => intro ds; simp
    | succ k ih => intro ds; simpa [List.replicate_succ] using ih ds
  simp only [decodeDigits, pad4, hzero]
  simpa [decodeDigits] using decodeDigits_natDigits n

theorem pad4_injective : Function.Injective pad4 := by
  intro m n h
  have := decodeDigits_pad4 m
  rw [h, decodeDigits_pad4] at this
  omega

theorem natDigits_length_le : ∀ k n, 1 ≤ k → n < 10 ^ k → (natDigits n).length ≤ k := by
  intro k
  induction k with
  | zero => intro n h; omega
  | succ k ih =>
    intro n _ hn
    by_cases h : n < 10
    · simp [natDigits, h]
    · rw [natDigits, dif_neg h]
      have hk : 1 ≤ k := by
        by_contra hc
        have hk0 : k = 0 := by omega
        subst hk0
        simp [pow_succ] at hn
        omega
      have hdiv : n / 10 < 10 ^ k := by
        have h10 : (10 : ℕ) ∣ 10 ^ (k + 1) := ⟨10 ^ k, by ring⟩
        have hdd := Nat.div_lt_div_of_lt_of_dvd h10 hn
        rw [pow_succ, Nat.mul_div_cancel _ (by omega : (0 : ℕ) < 10)] at hdd
        exact hdd
      have := ih (n / 10) hk hdiv
      simp only [List.length_append, List.length_cons, List.length_nil]
      omega

theorem pad4_length_of_lt (n : Nat) (h : n < 10000) : (pad4 n).length = 4 := by
  have h4 : n < 10 ^ 4 := lt_of_lt_of_le h (by norm_num)
  have hle : (natDigits n).length ≤ 4 := natDigits_length_le 4 n (by omega) h4
  simp only [pad4, List.length_append, List.length_replicate]
  omega

/-- Filesystem / process events, in the order the code performs them. -/
inductive Ev where
  | mkdir (path : String)
  | writeFrame (path : String)
  | encode (outPath : String) (pattern : String)
  | rmtree (path : String)
deriving DecidableEq

/-- Python exceptions reaching the caller.  `assertFailed ""` is a bare
`assert` (AssertionError without message). -/
inductive Err where
  | assertFailed (msg : String)
  | valueError (msg : String)
  | fileNotFound (msg : String)
deriving DecidableEq

instance {ε α : Type} [DecidableEq ε] [DecidableEq α] :
    DecidableEq (Except ε α) := fun a b =>
  match a, b with
  | .error e, .error f =>
    if h : e = f then isTrue (by rw [h])
    else isFalse fun hc => h (Except.error.inj hc)
  | .error _, .ok _ => isFalse fun hc => Except.noConfusion hc
  | .ok _, .error _ => isFalse fun hc => Except.noConfusion hc
  | .ok x, .ok y =>
    if h : x = y then isTrue (by rw [h])
    else isFalse fun hc => h (Except.ok.inj hc)

/-- Behaviour of the external encoder invocation: `subprocess.Popen` raises
when the tool is absent, otherwise the process runs and exits with some
code. -/
inductive EncoderOutcome where
  | toolMissing
  | exited (code : Nat)
deriving DecidableEq

/-- `create_mp4_clip` (render.py lines 217-243): builds the ffmpeg command,
starts it and calls `.wait()`.  The exit status returned by `wait()` is
discarded, so a non-zero exit does NOT raise; only a missing tool makes
`Popen` raise `FileNotFoundError`.  Returns the events performed and the
exception, if any. -/
def create_mp4_clip (enc : EncoderOutcome) (out_path frame_path_format : String) :
    List Ev × Option Err :=
  match enc with
  | .toolMissing => ([], some (.fileNotFound "ffmpeg"))
  | .exited _ => ([.encode out_path frame_path_format], none)

/-- One drawn bone segment: parent position, joint position, line color. -/
structure Seg where
  tailPt : Vec3
  headPt : Vec3
  color : String
deriving DecidableEq

/-- The draw state `update_frame` leaves behind for one frame: per panel the
bone segments, plus the elapsed-time text (its numeric value in seconds). -/
structure DrawState where
  panels : List (List Seg)
  elapsed : ℚ
deriving DecidableEq

/-- `update_frame` (render.py lines 344-362).  For panel `l`, bone `i`
(`i` in `range(1, len(parents))`), it draws the segment from
`pos[num, parents[i]]` to `pos[num, i]` with the color of `frameColor`, and
sets the figure text to `1/60.0 * num` seconds — note the hard-coded 60
(line 361), not the `fps` argument. -/
def update_frame (num : Nat) (positions : List (List (List Vec3)))
    (parents : List Int) (colors : List String)
    (ccaf : Option (List (Option Nat))) : DrawState :=
  { panels :=
      (List.range positions.length).map fun l =>
        let pos := positions.getD l []
        ((List.range parents.length).drop 1).map fun i =>
          { tailPt := (pos.getD num []).getD ((parents.getD i (-1)).toNat) default
            headPt := (pos.getD num []).getD i default
            color := frameColor ccaf colors l num }
    elapsed := 1 / 60 * num }

/-- Result of one `visualize_positions` call: the truncated length, the draw
states of the exported frames, the event trace, and the exception that ended
the call (`none` = returned normally). -/
structure VisResult where
  seqLength : Nat
  drawn : List DrawState
  events : List Ev
  error : Option Err
deriving DecidableEq

/-- `visualize_positions` (render.py lines 246-390), with the filesystem and
the encoder made explicit.

Control flow mirrored from the source:
* line 264: `seq_length = np.amin([pos.shape[0] for pos in positions])` —
  raises on an empty panel list;
* line 288: axis bounds `np.amin(pos[0], axis=(0, 1))` — raises on a
  zero-size first panel (no frames, or frames without joints); this happens
  before any file event;
* line 368: `out_file is None` means interactive display, no file events;
* line 371: `assert out_file.endswith('.mp4')`;
* lines 372-378: frame directory choice and creation;
* lines 381-383: one `update_frame` + `savefig` per index in
  `range(seq_length)`, file name `frame_{:0>4}.png`;
* line 386: `create_mp4_clip` (an exception there propagates, skipping the
  cleanup);
* lines 388-389: `shutil.rmtree` of the temporary directory only when no
  `frame_dir` was passed.

`saveDirExists` tells whether the frame directory already exists
(`os.path.exists` at line 377); `update_frame` receives
`colors + [colors[0]]` as in lines 366 and 382. -/
def visualize_positions (enc : EncoderOutcome) (saveDirExists : Bool)
    (positions : List (List (List Vec3))) (colors : List String)
    (parents : List Int) (ccaf : Option (List (Option Nat)))
    (out_file frame_dir : Option String) (fps : Nat) : VisResult :=
  match positions with
  | [] => ⟨0, [], [], some (.valueError "zero-size array to reduction operation")⟩
  | p0 :: rest =>
    let seq_length := (rest.map List.length).foldl Nat.min p0.length
    if p0.length = 0 ∨ (p0.headD []).length = 0 then
      ⟨seq_length, [], [], some (.valueError "zero-size array to reduction operation")⟩
    else
      match out_file with
      | none => ⟨seq_length, [], [], none⟩
      | some out =>
        if strEnds out ".mp4" then
          let save_to :=
            match frame_dir with
            | none => out ++ "_tmp/"
            | some d => d
          let evs0 : List Ev := if saveDirExists then [] else [.mkdir save_to]
          let drawn := (List.range seq_length).map fun j =>
            update_frame j (p0 :: rest) parents (colors ++ [colors.headD ""]) ccaf
          let writes := (List.range seq_length).map fun j =>
            Ev.writeFrame (pathJoin save_to (frameFileName j))
          let encRes := create_mp4_clip enc out (pathJoin save_to "frame_%04d.png")
          match encRes.2 with
          | some e => ⟨seq_length, drawn, evs0 ++ writes ++ encRes.1, some e⟩
          | none =>
            let evs1 := evs0 ++ writes ++ encRes.1
            let evs2 := if frame_dir.isNone then evs1 ++ [.rmtree save_to] else evs1
            ⟨seq_length, drawn, evs2, none⟩
        else
          ⟨seq_length, [], [], some (.assertFailed "Only mp4 extension works.")⟩

/-- The frame-file paths written, in write order, read off the event trace. -/
def frameWrites (evs : List Ev) : List String :=
  evs.filterMap fun e =>
    match e with
    | .writeFrame p => some p
    | _ => none

/-- Whether `pre` is an initial segment of `s`. -/
def strStarts (pre s : String) : Bool :=
  decide (s.data.take pre.data.length = pre.data)

/-- Replaying an event trace over a set of already-present files: frame
writes create (or overwrite) a file, `rmtree d` removes every file under
`d`. -/
def filesAfterFrom (acc : List String) (evs : List Ev) : List String :=
  evs.foldl
    (fun fs e =>
      match e with
      | .writeFrame p => if p ∈ fs then fs else fs ++ [p]
      | .rmtree d => fs.filter fun f => ¬ strStarts d f
      | _ => fs)
    acc

/-- The files present after replaying an event trace on an initially empty
directory tree. -/
def filesAfter (evs : List Ev) : List String :=
  filesAfterFrom [] evs

/-- The axis flip `pos[..., [0, 2, 1]]` of render.py lines 195-196. -/
def flipYZ (v : Vec3) : Vec3 := (v.1, v.2.2, v.2.1)

/-- Modelled from the spec: the forward-kinematics engine (`visualization.fk`,
not in the source tree).  Spec §4.2: the solver emits one PositionFrame per
input frame, so both entry points are per-frame functions mapped over the
sequence; their numeric bodies are parameters of the model. -/
structure FKEngine where
  fkSparse : List Mat3 → List Vec3
  fkFull : List Mat3 → List Vec3
  parents : List Int

/-- The `Visualizer` object state (render.py lines 18-32) restricted to the
fields the skeletal path reads.  `closest` stands for
`common.utils.get_closest_rotmat` (module not in the source tree; the spec
defines it as the per-matrix SVD projection to the nearest proper rotation,
whose numerics are irrelevant here), applied elementwise over the
`(-1, n_joints, 3, 3)` array. -/
structure VisualizerCfg where
  fk : FKEngine
  video_dir : Option String
  frames_dir : Option String
  is_sparse : Bool
  nInputJoints : Nat
  closest : Mat3 → Mat3

/-- The per-frame position solver selected by `is_sparse`
(render.py lines 188-193). -/
def VisualizerCfg.fkFrame (cfg : VisualizerCfg) : List Mat3 → List Vec3 :=
  if cfg.is_sparse then cfg.fk.fkSparse else cfg.fk.fkFull

/-- A rotation-matrix pose sequence, mirroring a numpy array of shape
`(frames, dim*9)`: the frame list plus the trailing-dimension metadata the
shape asserts read (joints per frame). -/
structure RSeq where
  frames : List (List Mat3)
  dim : Nat
deriving DecidableEq

/-- A quaternion pose sequence, shape `(frames, dim*4)`, entries `(w,x,y,z)`. -/
structure QSeq where
  frames : List (List (ℚ × ℚ × ℚ × ℚ))
  dim : Nat
deriving DecidableEq

/-- An axis-angle pose sequence, shape `(frames, dim*3)`. -/
structure ASeq where
  frames : List (List (ℚ × ℚ × ℚ))
  dim : Nat
deriving DecidableEq

/-- `fname.replace('/', '.').split('_')[0]` of render.py lines 198-199,
written on the character lists so that it reduces on concrete inputs: replace
every slash by a dot, then keep the part before the first underscore. -/
def cleanFname (fname : String) : String :=
  String.mk ((fname.data.map fun c => if c = '/' then '.' else c).takeWhile
    fun c => c ≠ '_')

/-- The arguments `visualize_rotmat` hands to `visualize_positions`
(render.py lines 207-214). -/
structure RotmatArgs where
  panels : List (List (List Vec3))
  colors : List String
  ccaf : Option (List (Option Nat))
  out_file : Option String
  frame_dir : Option String
deriving DecidableEq

/-- `Visualizer.visualize_rotmat` (render.py lines 164-214) up to the call of
`visualize_positions`: shape asserts, stitching the seed in front of both
prediction and target, closest-rotation correction of the prediction only,
validity checks (target first, then the corrected prediction), position
computation, output-path construction, and the panel/color/cutover argument
assembly.  Python `assert` failures become `Err.assertFailed`. -/
def rotmat_pipeline (cfg : VisualizerCfg) (seed prediction target : RSeq)
    (fname : String) : Except Err RotmatArgs :=
  if ¬ (seed.dim = cfg.nInputJoints ∧ prediction.dim = cfg.nInputJoints
      ∧ target.dim = cfg.nInputJoints) then
    .error (.assertFailed "")
  else if prediction.frames.length ≠ target.frames.length then
    .error (.assertFailed "")
  else
    let pred0 := seed.frames ++ prediction.frames
    let targ := seed.frames ++ target.frames
    let pred := pred0.map fun fr => fr.map cfg.closest
    if ¬ is_valid_rotmat targ then
      .error (.assertFailed "target rotation matrices are not valid rotations")
    else if ¬ is_valid_rotmat pred then
      .error (.assertFailed "predicted rotation matrices are not valid rotations")
    else
      let pred_pos := pred.map fun fr => (cfg.fkFrame fr).map flipYZ
      let targ_pos := targ.map fun fr => (cfg.fkFrame fr).map flipYZ
      let f := cleanFname fname
      let out_name := cfg.video_dir.map fun d =>
        pathJoin (pathJoin d f) (f ++ "_skeleton.mp4")
      let save_to := cfg.frames_dir.map fun d =>
        pathJoin (pathJoin d f) "frames_skeleton/"
      .ok { panels := [pred_pos, targ_pos]
            colors := [colorCycle.getD 0 "", colorCycle.getD 0 ""]
            ccaf := some [some seed.frames.length, none]
            out_file := out_name
            frame_dir := save_to }

/-- `Visualizer.visualize_rotmat` end to end: the pipeline above followed by
the `visualize_positions` call (with the default `fps = 60`, as in the
source). -/
def visualize_rotmat (enc : EncoderOutcome) (saveDirExists : Bool)
    (cfg : VisualizerCfg) (seed prediction target : RSeq) (fname : String) :
    Except Err VisResult :=
  match rotmat_pipeline cfg seed prediction target fname with
  | .error e => .error e
  | .ok a =>
    let r := visualize_positions enc saveDirExists a.panels a.colors
      cfg.fk.parents a.ccaf a.out_file a.frame_dir 60
    match r.error with
    | some e => .error e
    | none => .ok r

/-- Modelled from the spec: `quaternion.as_rotation_matrix` (external
package).  Spec §4.1: the standard unit-quaternion-to-matrix formula, input
assumed unit norm, no internal renormalization. -/
def quat_to_rotmat (q : ℚ × ℚ × ℚ × ℚ) : Mat3 :=
  let w := q.1
  let x := q.2.1
  let y := q.2.2.1
  let z := q.2.2.2
  ⟨1 - 2 * (y * y + z * z), 2 * (x * y - w * z), 2 * (x * z + w * y),
   2 * (x * y + w * z), 1 - 2 * (x * x + z * z), 2 * (y * z - w * x),
   2 * (x * z - w * y), 2 * (y * z + w * x), 1 - 2 * (x * x + y * y)⟩

/-- The `_to_rotmat` helper of `visualize_quat` (render.py lines 144-148):
reshape to quaternions, convert, flatten back. -/
def QSeq.toRSeq (s : QSeq) : RSeq :=
  ⟨s.frames.map fun fr => fr.map quat_to_rotmat, s.dim⟩

/-- `Visualizer.visualize_quat` (render.py lines 139-150): trailing-dimension
assert (`n * 4`), then the bare assert
`prediction.shape[0] == target.shape[0]`, then conversion of all three
sequences and the call to `visualize_rotmat`. -/
def visualize_quat (enc : EncoderOutcome) (saveDirExists : Bool)
    (cfg : VisualizerCfg) (seed prediction target : QSeq) (fname : String) :
    Except Err VisResult :=
  if ¬ (seed.dim = cfg.nInputJoints ∧ prediction.dim = cfg.nInputJoints
      ∧ target.dim = cfg.nInputJoints) then
    .error (.assertFailed "")
  else if prediction.frames.length ≠ target.frames.length then
    .error (.assertFailed "")
  else
    visualize_rotmat enc saveDirExists cfg seed.toRSeq prediction.toRSeq
      target.toRSeq fname

/-- The `_to_rotmat` helper of `visualize_aa` applied to a sequence.
`common.utils.aa2rotmat` is not in the source tree and the exponential map is
not exactly representable over ℚ, so the per-entry conversion is a parameter. -/
def ASeq.toRSeq (aa2rot : (ℚ × ℚ × ℚ) → Mat3) (s : ASeq) : RSeq :=
  ⟨s.frames.map fun fr => fr.map aa2rot, s.dim⟩

/-- `Visualizer.visualize_aa` (render.py lines 152-162): trailing-dimension
assert (`n * 3`), the bare length assert, conversion, and the call to
`visualize_rotmat`. -/
def visualize_aa (aa2rot : (ℚ × ℚ × ℚ) → Mat3) (enc : EncoderOutcome)
    (saveDirExists : Bool) (cfg : VisualizerCfg)
    (seed prediction target : ASeq) (fname : String) : Except Err VisResult :=
  if ¬ (seed.dim = cfg.nInputJoints ∧ prediction.dim = cfg.nInputJoints
      ∧ target.dim = cfg.nInputJoints) then
    .error (.assertFailed "")
  else if prediction.frames.length ≠ target.frames.length then
    .error (.assertFailed "")
  else
    visualize_rotmat enc saveDirExists cfg (seed.toRSeq aa2rot)
      (prediction.toRSeq aa2rot) (target.toRSeq aa2rot) fname

/-! Helper lemmas about the model, shared between the claim theorems. -/

theorem foldl_min_le_init (l : List Nat) (a : Nat) : l.foldl Nat.min a ≤ a := by
  induction l generalizing a with
  | nil => simp
  | cons x xs ih =>
    have h1 : (x :: xs).foldl Nat.min a = xs.foldl Nat.min (Nat.min a x) := rfl
    have h2 := ih (Nat.min a x)
    have h3 : Nat.min a x ≤ a := Nat.min_le_left a x
    omega

theorem foldl_min_le_mem (l : List Nat) (a b : Nat) (hb : b ∈ l) :
    l.foldl Nat.min a ≤ b := by
  induction l generalizing a with
  | nil => cases hb
  | cons x xs ih =>
    rcases List.mem_cons.mp hb with h | h
    · subst h
      have h1 : (b :: xs).foldl Nat.min a = xs.foldl Nat.min (Nat.min a b) := rfl
      have h2 := foldl_min_le_init xs (Nat.min a b)
      have h3 : Nat.min a b ≤ b := Nat.min_le_right a b
      omega
    · exact ih _ h

theorem foldl_min_eq_init_or_mem (l : List Nat) (a : Nat) :
    l.foldl Nat.min a = a ∨ l.foldl Nat.min a ∈ l := by
  induction l generalizing a with
  | nil => exact Or.inl rfl
  | cons x xs ih =>
    have hfold : (x :: xs).foldl Nat.min a = xs.foldl Nat.min (Nat.min a x) := rfl
    rcases ih (Nat.min a x) with h | h
    · rcases Nat.le_total a x with hax | hxa
      · left
        rw [hfold, h]
        exact Nat.min_eq_left hax
      · right
        rw [hfold, h]
        have hmin : Nat.min a x = x := Nat.min_eq_right hxa
        rw [hmin]
        exact List.mem_cons_self _ _
    · right
      rw [hfold]
      exact List.mem_cons_of_mem _ h

theorem frameWrites_append (a b : List Ev) :
    frameWrites (a ++ b) = frameWrites a ++ frameWrites b := by
  simp [frameWrites]

theorem frameWrites_map_write (p : Nat → String) (l : List Nat) :
    frameWrites (l.map fun j => Ev.writeFrame (p j)) = l.map p := by
  induction l with
  | nil => rfl
  | cons x xs ih => simpa [frameWrites, List.filterMap_cons] using ih

theorem filterMap_some_map (f : Nat → String) (l : List Nat) :
    List.filterMap (fun j => some (f j)) l = l.map f := by
  induction l with
  | nil => rfl
  | cons x xs ih => simp [List.filterMap_cons, ih]

theorem digitChar_inj_lt (d e : Nat) (hd : d < 10) (he : e < 10)
    (h : digitChar d = digitChar e) : d = e := by
  interval_cases d <;> interval_cases e <;> revert h <;> decide

theorem natDigits_lt_ten (n : Nat) : ∀ d ∈ natDigits n, d < 10 := by
  induction n using Nat.strong_induction_on with
  | _ n ih =>
    by_cases h : n < 10
    · simpa [natDigits, h] using h
    · rw [natDigits, dif_neg h]
      intro d hd
      rcases List.mem_append.mp hd with hmem | hmem
      · exact ih (n / 10) (Nat.div_lt_self (by omega) (by omega)) d hmem
      · simp at hmem
        subst hmem
        exact Nat.mod_lt _ (by omega)

theorem pad4_lt_ten (n : Nat) : ∀ d ∈ pad4 n, d < 10 := by
  intro d hd
  rcases List.mem_append.mp hd with hmem | hmem
  · rw [List.eq_of_mem_replicate hmem]
    omega
  · exact natDigits_lt_ten n d hmem

theorem map_digitChar_inj (xs ys : List Nat) (hx : ∀ d ∈ xs, d < 10)
    (hy : ∀ d ∈ ys, d < 10) (h : xs.map digitChar = ys.map digitChar) :
    xs = ys := by
  induction xs generalizing ys with
  | nil => cases ys <;> simp_all
  | cons x xs ih =>
    cases ys with
    | nil => simp at h
    | cons y ys =>
      simp only [List.map_cons, List.cons.injEq] at h
      have hx0 : x < 10 := hx x (List.mem_cons_self _ _)
      have hy0 : y < 10 := hy y (List.mem_cons_self _ _)
      have hxy : x = y := digitChar_inj_lt x y hx0 hy0 h.1
      have htl : xs = ys :=
        ih ys (fun d hd => hx d (List.mem_cons_of_mem _ hd))
          (fun d hd => hy d (List.mem_cons_of_mem _ hd)) h.2
      rw [hxy, htl]

theorem frameFileName_inj : Function.Injective frameFileName := by
  intro m n h
  have hdata : "frame_".data ++ ((pad4 m).map digitChar ++ ".png".data)
      = "frame_".data ++ ((pad4 n).map digitChar ++ ".png".data) := by
    have hh := congrArg String.data h
    simpa [frameFileName, List.append_assoc] using hh
  have h1 := List.append_cancel_left hdata
  have h2 := List.append_cancel_right h1
  exact pad4_injective (map_digitChar_inj _ _ (pad4_lt_ten m) (pad4_lt_ten n) h2)

theorem string_append_left_cancel (a b c : String) (h : a ++ b = a ++ c) :
    b = c := by
  have hd : (a ++ b).data = (a ++ c).data := by rw [h]
  simp only [String.data_append] at hd
  exact String.ext (List.append_cancel_left hd)

theorem framePath_inj (d : String) (m n : Nat)
    (h : pathJoin d (frameFileName m) = pathJoin d (frameFileName n)) : m = n := by
  by_cases hs : strEnds d "/"
  · simp only [pathJoin, if_pos hs] at h
    exact frameFileName_inj (string_append_left_cancel _ _ _ h)
  · simp only [pathJoin, if_neg hs] at h
    exact frameFileName_inj (string_append_left_cancel _ _ _ h)

theorem framePaths_nodup (d : String) (n : Nat) :
    ((List.range n).map fun j => pathJoin d (frameFileName j)).Nodup :=
  (List.nodup_range n).map fun {a b} h => framePath_inj d a b h

theorem filesAfterFrom_cons (acc : List String) (e : Ev) (evs : List Ev) :
    filesAfterFrom acc (e :: evs) = filesAfterFrom
      (match e with
       | .writeFrame p => if p ∈ acc then acc else acc ++ [p]
       | .rmtree d => acc.filter fun f => ¬ strStarts d f
       | _ => acc) evs := rfl

theorem filesAfterFrom_no_rm (evs : List Ev)
    (hrm : ∀ p, Ev.rmtree p ∉ evs) (hnd : (frameWrites evs).Nodup) :
    ∀ acc, (∀ q ∈ frameWrites evs, q ∉ acc) →
      filesAfterFrom acc evs = acc ++ frameWrites evs := by
  induction evs with
  | nil => intro acc _; simp [filesAfterFrom, frameWrites]
  | cons e evs ih =>
    intro acc hdis
    have hrm' : ∀ p, Ev.rmtree p ∉ evs := fun p hp =>
      hrm p (List.mem_cons_of_mem _ hp)
    cases e with
    | writeFrame p =>
      have hw : frameWrites (Ev.writeFrame p :: evs) = p :: frameWrites evs := by
        simp [frameWrites, List.filterMap_cons]
      rw [hw] at hnd hdis
      have hpacc : p ∉ acc := hdis p (List.mem_cons_self _ _)
      rw [filesAfterFrom_cons]
      simp only [if_neg hpacc]
      rw [ih hrm' (List.Nodup.of_cons hnd) (acc ++ [p]) ?_, hw]
      · simp
      · intro q hq hmem
        rcases List.mem_append.mp hmem with hqa | hqp
        · exact hdis q (List.mem_cons_of_mem _ hq) hqa
        · simp at hqp
          subst hqp
          exact (List.nodup_cons.mp hnd).1 hq
    | rmtree p => exact absurd (List.mem_cons_self _ _) (hrm p)
    | mkdir p =>
      have hw : frameWrites (Ev.mkdir p :: evs) = frameWrites evs := by
        simp [frameWrites, List.filterMap_cons]
      rw [hw] at hnd hdis
      rw [filesAfterFrom_cons]
      exact (ih hrm' hnd acc hdis).trans (by rw [hw])
    | encode o q =>
      have hw : frameWrites (Ev.encode o q :: evs) = frameWrites evs := by
        simp [frameWrites, List.filterMap_cons]
      rw [hw] at hnd hdis
      rw [filesAfterFrom_cons]
      exact (ih hrm' hnd acc hdis).trans (by rw [hw])

theorem filesAfter_eq_frameWrites (evs : List Ev)
    (hrm : ∀ p, Ev.rmtree p ∉ evs) (hnd : (frameWrites evs).Nodup) :
    filesAfter evs = frameWrites evs := by
  simpa [filesAfter] using filesAfterFrom_no_rm evs hrm hnd [] (by simp)

/-- Reduction of `visualize_positions` on the video-export path (panel list
non-empty, first panel non-degenerate, `.mp4` output name): the exact result
for each encoder outcome. -/
theorem visualize_positions_export (enc : EncoderOutcome) (sde : Bool)
    (p0 : List (List Vec3)) (rest : List (List (List Vec3)))
    (colors : List String) (parents : List Int) (ccaf : Option (List (Option Nat)))
    (out : String) (frame_dir : Option String) (fps : Nat)
    (h0 : p0.length ≠ 0) (hj : (p0.headD []).length ≠ 0)
    (hmp4 : strEnds out ".mp4" = true) :
    visualize_positions enc sde (p0 :: rest) colors parents ccaf (some out) frame_dir fps
      = (let seq := (rest.map List.length).foldl Nat.min p0.length
         let save_to := frame_dir.getD (out ++ "_tmp/")
         let evs0 : List Ev := if sde then [] else [.mkdir save_to]
         let drawn := (List.range seq).map fun j =>
           update_frame j (p0 :: rest) parents (colors ++ [colors.headD ""]) ccaf
         let writes := (List.range seq).map fun j =>
           Ev.writeFrame (pathJoin save_to (frameFileName j))
         match enc with
         | .toolMissing =>
           ⟨seq, drawn, evs0 ++ writes, some (.fileNotFound "ffmpeg")⟩
         | .exited _ =>
           let evs1 := evs0 ++ writes ++ [.encode out (pathJoin save_to "frame_%04d.png")]
           ⟨seq, drawn, if frame_dir.isNone then evs1 ++ [.rmtree save_to] else evs1,
            none⟩) := by
  have hj2 : ¬ p0.head?.getD [] = [] := fun hcon =>
    hj (by rw [List.headD_eq_head?, hcon]; rfl)
  cases enc <;> cases frame_dir <;>
    simp [visualize_positions, create_mp4_clip, h0, hj, hj2, hmp4]

theorem export_seqLength (enc : EncoderOutcome) (sde : Bool)
    (p0 : List (List Vec3)) (rest : List (List (List Vec3)))
    (colors : List String) (parents : List Int) (ccaf : Option (List (Option Nat)))
    (out : String) (frame_dir : Option String) (fps : Nat)
    (h0 : p0.length ≠ 0) (hj : (p0.headD []).length ≠ 0)
    (hmp4 : strEnds out ".mp4" = true) :
    (visualize_positions enc sde (p0 :: rest) colors parents ccaf (some out)
        frame_dir fps).seqLength
      = (rest.map List.length).foldl Nat.min p0.length := by
  rw [visualize_positions_export enc sde p0 rest colors parents ccaf out frame_dir
    fps h0 hj hmp4]
  cases enc <;> cases frame_dir <;> simp

theorem export_frameWrites (enc : EncoderOutcome) (sde : Bool)
    (p0 : List (List Vec3)) (rest : List (List (List Vec3)))
    (colors : List String) (parents : List Int) (ccaf : Option (List (Option Nat)))
    (out : String) (frame_dir : Option String) (fps : Nat)
    (h0 : p0.length ≠ 0) (hj : (p0.headD []).length ≠ 0)
    (hmp4 : strEnds out ".mp4" = true) :
    frameWrites (visualize_positions enc sde (p0 :: rest) colors parents ccaf
        (some out) frame_dir fps).events
      = (List.range ((rest.map List.length).foldl Nat.min p0.length)).map
          fun j => pathJoin (frame_dir.getD (out ++ "_tmp/")) (frameFileName j) := by
  rw [visualize_positions_export enc sde p0 rest colors parents ccaf out frame_dir
    fps h0 hj hmp4]
  cases enc <;> cases frame_dir <;> cases sde <;>
    simp [frameWrites_append, frameWrites, Function.comp_def, filterMap_some_map]

theorem export_drawn (enc : EncoderOutcome) (sde : Bool)
    (p0 : List (List Vec3)) (rest : List (List (List Vec3)))
    (colors : List String) (parents : List Int) (ccaf : Option (List (Option Nat)))
    (out : String) (frame_dir : Option String) (fps : Nat)
    (h0 : p0.length ≠ 0) (hj : (p0.headD []).length ≠ 0)
    (hmp4 : strEnds out ".mp4" = true) :
    (visualize_positions enc sde (p0 :: rest) colors parents ccaf (some out)
        frame_dir fps).drawn
      = (List.range ((rest.map List.length).foldl Nat.min p0.length)).map
          fun j => update_frame j (p0 :: rest) parents
            (colors ++ [colors.headD ""]) ccaf := by
  rw [visualize_positions_export enc sde p0 rest colors parents ccaf out frame_dir
    fps h0 hj hmp4]
  cases enc <;> cases frame_dir <;> simp

/-- C1: For every call to the animation composer (`visualize_positions`) with
a non-empty list of panels (a first panel `p0` and further panels `rest`,
taking the video-export path with a well-formed first panel), the animation
is truncated to the minimum sequence length over all panels — `seqLength` is
a lower bound of every panel length and is attained by some panel — and
exactly that many frame files are written. -/
theorem c1_truncation_policy (enc : EncoderOutcome) (sde : Bool)
    (p0 : List (List Vec3)) (rest : List (List (List Vec3)))
    (colors : List String) (parents : List Int) (ccaf : Option (List (Option Nat)))
    (out : String) (frame_dir : Option String) (fps : Nat)
    (h0 : p0.length ≠ 0) (hj : (p0.headD []).length ≠ 0)
    (hmp4 : strEnds out ".mp4" = true) :
    (∀ p ∈ p0 :: rest,
        (visualize_positions enc sde (p0 :: rest) colors parents ccaf (some out)
          frame_dir fps).seqLength ≤ p.length)
    ∧ (∃ p ∈ p0 :: rest,
        (visualize_positions enc sde (p0 :: rest) colors parents ccaf (some out)
          frame_dir fps).seqLength = p.length)
    ∧ (frameWrites (visualize_positions enc sde (p0 :: rest) colors parents ccaf
          (some out) frame_dir fps).events).length
        = (visualize_positions enc sde (p0 :: rest) colors parents ccaf (some out)
            frame_dir fps).seqLength := by
  rw [export_seqLength enc sde p0 rest colors parents ccaf out frame_dir fps h0 hj hmp4,
    export_frameWrites enc sde p0 rest colors parents ccaf out frame_dir fps h0 hj hmp4]
  refine ⟨?_, ?_, ?_⟩
  · intro p hp
    rcases List.mem_cons.mp hp with h | h
    · subst h
      exact foldl_min_le_init _ _
    · exact foldl_min_le_mem _ _ _ (List.mem_map_of_mem List.length h)
  · rcases foldl_min_eq_init_or_mem (rest.map List.length) p0.length with h | h
    · exact ⟨p0, List.mem_cons_self _ _, h⟩
    · obtain ⟨p, hp, hlen⟩ := List.mem_map.mp h
      exact ⟨p, List.mem_cons_of_mem _ hp, hlen.symm⟩
  · simp

/-- C1 witness: two position sequences of lengths 10 and 7 give exactly 7
output frames. -/
theorem c1_truncation_policy_witness :
    (∀ p ∈ List.replicate 10 [((0 : ℚ), (0 : ℚ), (0 : ℚ))]
        :: [List.replicate 7 [((0 : ℚ), (0 : ℚ), (0 : ℚ))]],
        (visualize_positions (.exited 0) false
          (List.replicate 10 [((0 : ℚ), (0 : ℚ), (0 : ℚ))]
            :: [List.replicate 7 [((0 : ℚ), (0 : ℚ), (0 : ℚ))]])
          ["#1f77b4", "#1f77b4"] [-1, 0] none (some "a.mp4") none 60).seqLength
          ≤ p.length)
    ∧ (∃ p ∈ List.replicate 10 [((0 : ℚ), (0 : ℚ), (0 : ℚ))]
        :: [List.replicate 7 [((0 : ℚ), (0 : ℚ), (0 : ℚ))]],
        (visualize_positions (.exited 0) false
          (List.replicate 10 [((0 : ℚ), (0 : ℚ), (0 : ℚ))]
            :: [List.replicate 7 [((0 : ℚ), (0 : ℚ), (0 : ℚ))]])
          ["#1f77b4", "#1f77b4"] [-1, 0] none (some "a.mp4") none 60).seqLength
          = p.length)
    ∧ (frameWrites (visualize_positions (.exited 0) false
          (List.replicate 10 [((0 : ℚ), (0 : ℚ), (0 : ℚ))]
            :: [List.replicate 7 [((0 : ℚ), (0 : ℚ), (0 : ℚ))]])
          ["#1f77b4", "#1f77b4"] [-1, 0] none (some "a.mp4") none 60).events).length
        = (visualize_positions (.exited 0) false
          (List.replicate 10 [((0 : ℚ), (0 : ℚ), (0 : ℚ))]
            :: [List.replicate 7 [((0 : ℚ), (0 : ℚ), (0 : ℚ))]])
          ["#1f77b4", "#1f77b4"] [-1, 0] none (some "a.mp4") none 60).seqLength :=
  c1_truncation_policy (.exited 0) false
    (List.replicate 10 [((0 : ℚ), (0 : ℚ), (0 : ℚ))])
    [List.replicate 7 [((0 : ℚ), (0 : ℚ), (0 : ℚ))]]
    ["#1f77b4", "#1f77b4"] [-1, 0] none "a.mp4" none 60
    (by decide) (by decide) (by decide)

/-- C2: When an animation of N frames (`N = r.seqLength`, any N, including
N = 1) is exported to a directory `d`, exactly N frame image files are
written, named `frame_####.png` with the zero-padded sequential index
`0..N-1` in order — no gaps, no duplicates — and after replaying all
filesystem events exactly those N files are present.  The pad-to-width-4
naming gives names of exactly 4 digits for every index below 10000. -/
theorem c2_contiguous_export (enc : EncoderOutcome) (sde : Bool)
    (p0 : List (List Vec3)) (rest : List (List (List Vec3)))
    (colors : List String) (parents : List Int) (ccaf : Option (List (Option Nat)))
    (out d : String) (fps : Nat) (r : VisResult)
    (h0 : p0.length ≠ 0) (hj : (p0.headD []).length ≠ 0)
    (hmp4 : strEnds out ".mp4" = true)
    (hr : visualize_positions enc sde (p0 :: rest) colors parents ccaf (some out)
      (some d) fps = r) :
    frameWrites r.events
        = (List.range r.seqLength).map (fun j => pathJoin d (frameFileName j))
      ∧ (frameWrites r.events).Nodup
      ∧ filesAfter r.events
          = (List.range r.seqLength).map (fun j => pathJoin d (frameFileName j))
      ∧ (filesAfter r.events).length = r.seqLength
      ∧ (∀ j, j < 10000 → (pad4 j).length = 4) := by
  subst hr
  have hs := export_seqLength enc sde p0 rest colors parents ccaf out (some d) fps
    h0 hj hmp4
  have hw := export_frameWrites enc sde p0 rest colors parents ccaf out (some d) fps
    h0 hj hmp4
  simp only [Option.getD_some] at hw
  have hrm : ∀ p, Ev.rmtree p ∉ (visualize_positions enc sde (p0 :: rest) colors
      parents ccaf (some out) (some d) fps).events := by
    rw [visualize_positions_export enc sde p0 rest colors parents ccaf out (some d)
      fps h0 hj hmp4]
    cases enc <;> cases sde <;> simp
  have hnd : ((List.range ((rest.map List.length).foldl Nat.min p0.length)).map
      fun j => pathJoin d (frameFileName j)).Nodup := framePaths_nodup d _
  have hnd2 : (frameWrites (visualize_positions enc sde (p0 :: rest) colors parents
      ccaf (some out) (some d) fps).events).Nodup := by
    rw [hw]
    exact hnd
  have hfa := filesAfter_eq_frameWrites _ hrm hnd2
  rw [hs, hw, hfa, hw]
  exact ⟨rfl, hnd, rfl, by simp, fun j hjj => pad4_length_of_lt j hjj⟩

/-- C2 witness: exporting a single-frame animation (N = 1) to a directory
writes exactly the one file `frame_0000.png`. -/
theorem c2_contiguous_export_witness :
    frameWrites (visualize_positions (.exited 0) false
        [[[((0 : ℚ), (0 : ℚ), (0 : ℚ))]]] ["#1f77b4"] [-1, 0] none
        (some "a.mp4") (some "dir") 60).events
        = (List.range (visualize_positions (.exited 0) false
            [[[((0 : ℚ), (0 : ℚ), (0 : ℚ))]]] ["#1f77b4"] [-1, 0] none
            (some "a.mp4") (some "dir") 60).seqLength).map
            (fun j => pathJoin "dir" (frameFileName j))
      ∧ (frameWrites (visualize_positions (.exited 0) false
          [[[((0 : ℚ), (0 : ℚ), (0 : ℚ))]]] ["#1f77b4"] [-1, 0] none
          (some "a.mp4") (some "dir") 60).events).Nodup
      ∧ filesAfter (visualize_positions (.exited 0) false
          [[[((0 : ℚ), (0 : ℚ), (0 : ℚ))]]] ["#1f77b4"] [-1, 0] none
          (some "a.mp4") (some "dir") 60).events
          = (List.range (visualize_positions (.exited 0) false
              [[[((0 : ℚ), (0 : ℚ), (0 : ℚ))]]] ["#1f77b4"] [-1, 0] none
              (some "a.mp4") (some "dir") 60).seqLength).map
              (fun j => pathJoin "dir" (frameFileName j))
      ∧ (filesAfter (visualize_positions (.exited 0) false
          [[[((0 : ℚ), (0 : ℚ), (0 : ℚ))]]] ["#1f77b4"] [-1, 0] none
          (some "a.mp4") (some "dir") 60).events).length
          = (visualize_positions (.exited 0) false
              [[[((0 : ℚ), (0 : ℚ), (0 : ℚ))]]] ["#1f77b4"] [-1, 0] none
              (some "a.mp4") (some "dir") 60).seqLength
      ∧ (∀ j, j < 10000 → (pad4 j).length = 4) :=
  c2_contiguous_export (.exited 0) false [[((0 : ℚ), (0 : ℚ), (0 : ℚ))]] []
    ["#1f77b4"] [-1, 0] none "a.mp4" "dir" 60 _
    (by decide) (by decide) (by decide) rfl

/-- C4 counterexample: with the encoder present but exiting with status 1
(non-zero), the export step does NOT fail — `create_mp4_clip` discards the
status returned by `wait()` (render.py:242) — and since no frame directory
was requested, the temporary frames are deleted rather than preserved.  This
refutes the claim that a non-zero encoder exit is fatal with frames kept. -/
theorem c4_counterexample :
    (visualize_positions (.exited 1) false [[[((0 : ℚ), (0 : ℚ), (0 : ℚ))]]]
        ["#1f77b4"] [-1, 0] none (some "a.mp4") none 60).error = none
    ∧ Ev.rmtree "a.mp4_tmp/" ∈ (visualize_positions (.exited 1) false
        [[[((0 : ℚ), (0 : ℚ), (0 : ℚ))]]]
        ["#1f77b4"] [-1, 0] none (some "a.mp4") none 60).events
    ∧ (frameWrites (visualize_positions (.exited 1) false
        [[[((0 : ℚ), (0 : ℚ), (0 : ℚ))]]]
        ["#1f77b4"] [-1, 0] none (some "a.mp4") none 60).events).length = 1
    ∧ filesAfter (visualize_positions (.exited 1) false
        [[[((0 : ℚ), (0 : ℚ), (0 : ℚ))]]]
        ["#1f77b4"] [-1, 0] none (some "a.mp4") none 60).events = [] := by
  decide

/-- C4 (amended): only a MISSING encoder tool makes the export step fail
(`Popen` raises), and in that case the already-written frame files are
preserved — the cleanup `shutil.rmtree` is skipped because the exception
propagates past it — while a non-zero encoder exit status is silently
ignored (`wait()`'s result is discarded), the call returns without error and,
when no frame directory was requested, the frames are deleted. -/
theorem c4_encoder_policy (n : Nat)
    (p0 : List (List Vec3)) (rest : List (List (List Vec3)))
    (colors : List String) (parents : List Int) (ccaf : Option (List (Option Nat)))
    (out : String) (fps : Nat) (r1 r2 : VisResult)
    (h0 : p0.length ≠ 0) (hj : (p0.headD []).length ≠ 0)
    (hmp4 : strEnds out ".mp4" = true)
    (hr1 : visualize_positions .toolMissing false (p0 :: rest) colors parents ccaf
      (some out) none fps = r1)
    (hr2 : visualize_positions (.exited n) false (p0 :: rest) colors parents ccaf
      (some out) none fps = r2) :
    (r1.error = some (.fileNotFound "ffmpeg")
      ∧ (∀ p, Ev.rmtree p ∉ r1.events)
      ∧ filesAfter r1.events = (List.range r1.seqLength).map
          fun j => pathJoin (out ++ "_tmp/") (frameFileName j))
    ∧ r2.error = none := by
  subst hr1
  subst hr2
  have hw := export_frameWrites .toolMissing false p0 rest colors parents ccaf out
    none fps h0 hj hmp4
  simp only [Option.getD_none] at hw
  have hrm : ∀ p, Ev.rmtree p ∉ (visualize_positions .toolMissing false (p0 :: rest)
      colors parents ccaf (some out) none fps).events := by
    rw [visualize_positions_export .toolMissing false p0 rest colors parents ccaf out
      none fps h0 hj hmp4]
    simp
  refine ⟨⟨?_, hrm, ?_⟩, ?_⟩
  · rw [visualize_positions_export .toolMissing false p0 rest colors parents ccaf out
      none fps h0 hj hmp4]
  · have hnd : (frameWrites (visualize_positions .toolMissing false (p0 :: rest)
        colors parents ccaf (some out) none fps).events).Nodup := by
      rw [hw]
      exact framePaths_nodup _ _
    rw [filesAfter_eq_frameWrites _ hrm hnd, hw,
      export_seqLength .toolMissing false p0 rest colors parents ccaf out none fps
        h0 hj hmp4]
  · rw [visualize_positions_export (.exited n) false p0 rest colors parents ccaf out
      none fps h0 hj hmp4]

/-- C4 witness: a missing ffmpeg makes the call raise and the written frame
file survives in the temporary directory. -/
theorem c4_encoder_policy_witness :
    ((visualize_positions .toolMissing false [[((0 : ℚ), (0 : ℚ), (0 : ℚ))]
          :: []] ["#1f77b4"] [-1, 0] none (some "a.mp4") none 60).error
        = some (.fileNotFound "ffmpeg")
      ∧ (∀ p, Ev.rmtree p ∉ (visualize_positions .toolMissing false
          [[((0 : ℚ), (0 : ℚ), (0 : ℚ))] :: []] ["#1f77b4"] [-1, 0] none
          (some "a.mp4") none 60).events)
      ∧ filesAfter (visualize_positions .toolMissing false
          [[((0 : ℚ), (0 : ℚ), (0 : ℚ))] :: []] ["#1f77b4"] [-1, 0] none
          (some "a.mp4") none 60).events
          = (List.range (visualize_positions .toolMissing false
              [[((0 : ℚ), (0 : ℚ), (0 : ℚ))] :: []] ["#1f77b4"] [-1, 0] none
              (some "a.mp4") none 60).seqLength).map
              fun j => pathJoin ("a.mp4" ++ "_tmp/") (frameFileName j))
    ∧ (visualize_positions (.exited 7) false [[((0 : ℚ), (0 : ℚ), (0 : ℚ))]
        :: []] ["#1f77b4"] [-1, 0] none (some "a.mp4") none 60).error = none :=
  c4_encoder_policy 7 ([((0 : ℚ), (0 : ℚ), (0 : ℚ))] :: []) [] ["#1f77b4"]
    [-1, 0] none "a.mp4" 60 _ _ (by decide) (by decide) (by decide) rfl rfl

/-- C5: temporary-directory lifecycle on the video-export path of
`visualize_positions`, starting from a fresh directory state.  When no frame
directory is requested, the event trace is exactly: create the temporary
directory, then all frame writes, then the encoder invocation, then the
unconditional `rmtree` of the temporary directory — for EVERY exit code of
the encoder process (success or failure), since the exit status is never
inspected; deletion only requires the process to have run.  When the caller
requested persisted frames (a frame directory is given), no `rmtree` ever
happens. -/
theorem c5_tmpdir_lifecycle (n : Nat)
    (p0 : List (List Vec3)) (rest : List (List (List Vec3)))
    (colors : List String) (parents : List Int) (ccaf : Option (List (Option Nat)))
    (out d : String) (fps : Nat) (r1 r2 : VisResult)
    (h0 : p0.length ≠ 0) (hj : (p0.headD []).length ≠ 0)
    (hmp4 : strEnds out ".mp4" = true)
    (hr1 : visualize_positions (.exited n) false (p0 :: rest) colors parents ccaf
      (some out) none fps = r1)
    (hr2 : visualize_positions (.exited n) false (p0 :: rest) colors parents ccaf
      (some out) (some d) fps = r2) :
    (r1.events = Ev.mkdir (out ++ "_tmp/")
        :: (((List.range r1.seqLength).map fun j =>
              Ev.writeFrame (pathJoin (out ++ "_tmp/") (frameFileName j)))
            ++ [Ev.encode out (pathJoin (out ++ "_tmp/") "frame_%04d.png"),
                Ev.rmtree (out ++ "_tmp/")])
      ∧ r1.error = none)
    ∧ (∀ p, Ev.rmtree p ∉ r2.events) := by
  subst hr1
  subst hr2
  have hs := export_seqLength (.exited n) false p0 rest colors parents ccaf out
    none fps h0 hj hmp4
  refine ⟨⟨?_, ?_⟩, ?_⟩
  · rw [hs, visualize_positions_export (.exited n) false p0 rest colors parents ccaf
      out none fps h0 hj hmp4]
    simp
  · rw [visualize_positions_export (.exited n) false p0 rest colors parents ccaf
      out none fps h0 hj hmp4]
  · rw [visualize_positions_export (.exited n) false p0 rest colors parents ccaf
      out (some d) fps h0 hj hmp4]
    simp

/-- C5 witness: one panel with one frame; encoder exit status 1 (failure)
still ends with the temporary directory removed, and with a requested frame
directory nothing is removed. -/
theorem c5_tmpdir_lifecycle_witness :
    ((visualize_positions (.exited 1) false [[((0 : ℚ), (0 : ℚ), (0 : ℚ))]
          :: []] ["#1f77b4"] [-1, 0] none (some "a.mp4") none 60).events
        = Ev.mkdir ("a.mp4" ++ "_tmp/")
          :: (((List.range (visualize_positions (.exited 1) false
                [[((0 : ℚ), (0 : ℚ), (0 : ℚ))] :: []] ["#1f77b4"] [-1, 0] none
                (some "a.mp4") none 60).seqLength).map fun j =>
                Ev.writeFrame (pathJoin ("a.mp4" ++ "_tmp/") (frameFileName j)))
              ++ [Ev.encode "a.mp4" (pathJoin ("a.mp4" ++ "_tmp/") "frame_%04d.png"),
                  Ev.rmtree ("a.mp4" ++ "_tmp/")])
      ∧ (visualize_positions (.exited 1) false [[((0 : ℚ), (0 : ℚ), (0 : ℚ))]
          :: []] ["#1f77b4"] [-1, 0] none (some "a.mp4") none 60).error = none)
    ∧ (∀ p, Ev.rmtree p ∉ (visualize_positions (.exited 1) false
        [[((0 : ℚ), (0 : ℚ), (0 : ℚ))] :: []] ["#1f77b4"] [-1, 0] none
        (some "a.mp4") (some "dir") 60).events) :=
  c5_tmpdir_lifecycle 1 ([((0 : ℚ), (0 : ℚ), (0 : ℚ))] :: []) [] ["#1f77b4"]
    [-1, 0] none "a.mp4" "dir" 60 _ _ (by decide) (by decide) (by decide) rfl rfl

/-- C7 counterexample: two panels of lengths 1 and 0 — the truncation length
is 0 — yet `visualize_positions` raises nothing resembling EmptyAnimation:
it returns without error, creates the frame directory, writes zero frames
and still invokes the external encoder; file I/O very much happens. -/
theorem c7_counterexample :
    (visualize_positions (.exited 0) false
        [[[((0 : ℚ), (0 : ℚ), (0 : ℚ))]], []] ["#1f77b4", "#1f77b4"] [-1, 0]
        none (some "a.mp4") none 60).seqLength = 0
    ∧ (visualize_positions (.exited 0) false
        [[[((0 : ℚ), (0 : ℚ), (0 : ℚ))]], []] ["#1f77b4", "#1f77b4"] [-1, 0]
        none (some "a.mp4") none 60).error = none
    ∧ Ev.mkdir "a.mp4_tmp/" ∈ (visualize_positions (.exited 0) false
        [[[((0 : ℚ), (0 : ℚ), (0 : ℚ))]], []] ["#1f77b4", "#1f77b4"] [-1, 0]
        none (some "a.mp4") none 60).events
    ∧ Ev.encode "a.mp4" "a.mp4_tmp/frame_%04d.png" ∈ (visualize_positions
        (.exited 0) false [[[((0 : ℚ), (0 : ℚ), (0 : ℚ))]], []]
        ["#1f77b4", "#1f77b4"] [-1, 0] none (some "a.mp4") none 60).events
    ∧ frameWrites (visualize_positions (.exited 0) false
        [[[((0 : ℚ), (0 : ℚ), (0 : ℚ))]], []] ["#1f77b4", "#1f77b4"] [-1, 0]
        none (some "a.mp4") none 60).events = [] := by
  decide

/-- C7 (amended): there is no EmptyAnimation condition in the code.  When the
FIRST panel is zero-size, the axis-bounds reduction (`np.amin(pos[0])`,
render.py:288) raises a generic ValueError before any file event; an empty
panel LIST fails the same way at the `np.amin` over lengths (render.py:264).
When only a later panel is empty (truncation length 0 with a well-formed
first panel), composition proceeds without any error: zero frames are
written, the frame directory is still created and the encoder is still
invoked. -/
theorem c7_zero_frames (n : Nat)
    (p0 : List (List Vec3)) (rest : List (List (List Vec3)))
    (colors : List String) (parents : List Int) (ccaf : Option (List (Option Nat)))
    (out : String) (fps : Nat) (r2 : VisResult)
    (h0 : p0.length ≠ 0) (hj : (p0.headD []).length ≠ 0)
    (hmp4 : strEnds out ".mp4" = true)
    (hmin : (rest.map List.length).foldl Nat.min p0.length = 0)
    (hr2 : visualize_positions (.exited n) false (p0 :: rest) colors parents ccaf
      (some out) none fps = r2) :
    (∀ (enc : EncoderOutcome) (sde : Bool) (cs : List String) (ps : List Int)
        (cc : Option (List (Option Nat))) (o fd : Option String) (f : Nat)
        (q0 : List (List Vec3)) (rest1 : List (List (List Vec3))),
        q0.length = 0 →
          (visualize_positions enc sde (q0 :: rest1) cs ps cc o fd f).error
              = some (.valueError "zero-size array to reduction operation")
            ∧ (visualize_positions enc sde (q0 :: rest1) cs ps cc o fd f).events = [])
    ∧ r2.error = none
    ∧ frameWrites r2.events = []
    ∧ Ev.mkdir (out ++ "_tmp/") ∈ r2.events
    ∧ Ev.encode out (pathJoin (out ++ "_tmp/") "frame_%04d.png") ∈ r2.events := by
  subst hr2
  refine ⟨?_, ?_, ?_, ?_, ?_⟩
  · intro enc sde cs ps cc o fd f q0 rest1 hq
    constructor <;> simp [visualize_positions, hq]
  · rw [visualize_positions_export (.exited n) false p0 rest colors parents ccaf out
      none fps h0 hj hmp4]
  · have hw := export_frameWrites (.exited n) false p0 rest colors parents ccaf out
      none fps h0 hj hmp4
    rw [hw, hmin]
    rfl
  · rw [visualize_positions_export (.exited n) false p0 rest colors parents ccaf out
      none fps h0 hj hmp4]
    simp
  · rw [visualize_positions_export (.exited n) false p0 rest colors parents ccaf out
      none fps h0 hj hmp4]
    simp

/-- C7 witness: panels of lengths 1 and 0 — the error-free zero-frame export
really happens, and a first panel of length 0 really raises. -/
theorem c7_zero_frames_witness :
    ((∀ (enc : EncoderOutcome) (sde : Bool) (cs : List String) (ps : List Int)
        (cc : Option (List (Option Nat))) (o fd : Option String) (f : Nat)
        (q0 : List (List Vec3)) (rest1 : List (List (List Vec3))),
        q0.length = 0 →
          (visualize_positions enc sde (q0 :: rest1) cs ps cc o fd f).error
              = some (.valueError "zero-size array to reduction operation")
            ∧ (visualize_positions enc sde (q0 :: rest1) cs ps cc o fd f).events = [])
    ∧ (visualize_positions (.exited 0) false
        ([[((0 : ℚ), (0 : ℚ), (0 : ℚ))]] :: [[]]) ["#1f77b4", "#1f77b4"] [-1, 0]
        none (some "a.mp4") none 60).error = none
    ∧ frameWrites (visualize_positions (.exited 0) false
        ([[((0 : ℚ), (0 : ℚ), (0 : ℚ))]] :: [[]]) ["#1f77b4", "#1f77b4"] [-1, 0]
        none (some "a.mp4") none 60).events = []
    ∧ Ev.mkdir ("a.mp4" ++ "_tmp/") ∈ (visualize_positions (.exited 0) false
        ([[((0 : ℚ), (0 : ℚ), (0 : ℚ))]] :: [[]]) ["#1f77b4", "#1f77b4"] [-1, 0]
        none (some "a.mp4") none 60).events
    ∧ Ev.encode "a.mp4" (pathJoin ("a.mp4" ++ "_tmp/") "frame_%04d.png")
        ∈ (visualize_positions (.exited 0) false
          ([[((0 : ℚ), (0 : ℚ), (0 : ℚ))]] :: [[]]) ["#1f77b4", "#1f77b4"] [-1, 0]
          none (some "a.mp4") none 60).events) :=
  c7_zero_frames 0 [[((0 : ℚ), (0 : ℚ), (0 : ℚ))]] [[]] ["#1f77b4", "#1f77b4"]
    [-1, 0] none "a.mp4" 60 _ (by decide) (by decide) (by decide) (by decide) rfl

/-- C6 counterexample: a panel whose cutover frame is SET to 0.  The claim
says every frame `t ≥ 0` must use the distinct post-cutover color; the code
(render.py:355) tests the Python truthiness of `change_color_after_frame[l]`,
and `0` is falsy, so every segment keeps the base color instead. -/
theorem c6_counterexample :
    frameColor (some [some 0]) ["#1f77b4"] 0 0 = "#1f77b4"
    ∧ cutoverEntry (some [some 0]) 0 = some 0
    ∧ postCutoverColor = "#2ca02c"
    ∧ ("#1f77b4" : String) ≠ "#2ca02c"
    ∧ (∀ seg ∈ (update_frame 0 [[[((0 : ℚ), (0 : ℚ), (0 : ℚ)),
          ((0 : ℚ), (1 : ℚ), (0 : ℚ))]]] [-1, 0] ["#1f77b4"]
          (some [some 0])).panels.getD 0 [], seg.color = "#1f77b4") := by
  decide

/-- C6 (amended): every bone segment of panel `l` at output frame `t` is
drawn in `frameColor`, which equals the panel's base color when the cutover
entry is unset, when `t` is before the cutover frame, AND ALSO when the
cutover frame is 0 (Python truthiness makes a zero entry behave as unset);
the distinct post-cutover color `_colors[2]` is used exactly when the entry
is set, non-zero and `t ≥` it. -/
theorem c6_color_policy (positions : List (List (List Vec3)))
    (parents : List Int) (colors : List String)
    (ccaf : Option (List (Option Nat))) (num l : Nat)
    (hl : l < positions.length) :
    (∀ seg ∈ (update_frame num positions parents colors ccaf).panels.getD l [],
        seg.color = frameColor ccaf colors l num)
    ∧ (cutoverEntry ccaf l = none →
        frameColor ccaf colors l num = colors.getD l "")
    ∧ (∀ c, cutoverEntry ccaf l = some c → num < c →
        frameColor ccaf colors l num = colors.getD l "")
    ∧ (cutoverEntry ccaf l = some 0 →
        frameColor ccaf colors l num = colors.getD l "")
    ∧ (∀ c, cutoverEntry ccaf l = some c → c ≠ 0 → c ≤ num →
        frameColor ccaf colors l num = postCutoverColor) := by
  refine ⟨?_, ?_, ?_, ?_, ?_⟩
  · intro seg hseg
    have hpan : (update_frame num positions parents colors ccaf).panels.getD l []
        = ((List.range parents.length).drop 1).map fun i =>
            { tailPt := ((positions.getD l []).getD num []).getD
                ((parents.getD i (-1)).toNat) default
              headPt := ((positions.getD l []).getD num []).getD i default
              color := frameColor ccaf colors l num } := by
      simp only [update_frame]
      rw [List.getD_eq_getElem?_getD, List.getElem?_map, List.getElem?_range hl]
      rfl
    rw [hpan] at hseg
    obtain ⟨i, _, hi⟩ := List.mem_map.mp hseg
    rw [← hi]
  · intro h
    simp [frameColor, h]
  · intro c hc hlt
    simp only [frameColor, hc]
    rw [if_neg]
    omega
  · intro h
    simp [frameColor, h]
  · intro c hc hne hle
    simp only [frameColor, hc]
    rw [if_pos ⟨hne, hle⟩]

/-- C6 witness: a two-panel configuration with cutover entries
`(2, None)` — frame 1 of panel 0 keeps the base color, frame 2 switches to
the post-cutover color, panel 1 never switches. -/
theorem c6_color_policy_witness :
    ((∀ seg ∈ (update_frame 2 [[[((0 : ℚ), (0 : ℚ), (0 : ℚ))],
          [((0 : ℚ), (0 : ℚ), (0 : ℚ))], [((0 : ℚ), (0 : ℚ), (0 : ℚ))]]]
          [-1, 0] ["#1f77b4"] (some [some 2, none])).panels.getD 0 [],
        seg.color = frameColor (some [some 2, none]) ["#1f77b4"] 0 2)
    ∧ (cutoverEntry (some [some 2, none]) 0 = none →
        frameColor (some [some 2, none]) ["#1f77b4"] 0 2 = ["#1f77b4"].getD 0 "")
    ∧ (∀ c, cutoverEntry (some [some 2, none]) 0 = some c → 2 < c →
        frameColor (some [some 2, none]) ["#1f77b4"] 0 2 = ["#1f77b4"].getD 0 "")
    ∧ (cutoverEntry (some [some 2, none]) 0 = some 0 →
        frameColor (some [some 2, none]) ["#1f77b4"] 0 2 = ["#1f77b4"].getD 0 "")
    ∧ (∀ c, cutoverEntry (some [some 2, none]) 0 = some c → c ≠ 0 → c ≤ 2 →
        frameColor (some [some 2, none]) ["#1f77b4"] 0 2 = postCutoverColor))
    ∧ frameColor (some [some 2, none]) ["#1f77b4", "#ff7f0e"] 0 1 = "#1f77b4"
    ∧ frameColor (some [some 2, none]) ["#1f77b4", "#ff7f0e"] 0 2 = "#2ca02c"
    ∧ frameColor (some [some 2, none]) ["#1f77b4", "#ff7f0e"] 1 2 = "#ff7f0e" :=
  ⟨c6_color_policy [[[((0 : ℚ), (0 : ℚ), (0 : ℚ))], [((0 : ℚ), (0 : ℚ), (0 : ℚ))],
      [((0 : ℚ), (0 : ℚ), (0 : ℚ))]]] [-1, 0] ["#1f77b4"] (some [some 2, none]) 2 0
      (by decide),
   by decide, by decide, by decide⟩

unseal Rat.mul Rat.add Rat.sub Rat.inv in
/-- C8 counterexample: `visualize_positions` called with `fps = 30`; the
time text of exported frame 1 reads `1/60` seconds, not `1/30 = t/fps`.
The time text hard-codes 60 (render.py:361: `1/60.0*num`), so it is NOT
consistent with the fps argument. -/
theorem c8_counterexample :
    ((visualize_positions (.exited 0) false
        [[[((0 : ℚ), (0 : ℚ), (0 : ℚ))], [((0 : ℚ), (0 : ℚ), (0 : ℚ))]]]
        ["#1f77b4"] [-1, 0] none (some "a.mp4") none 30).drawn.getD 1
        ⟨[], 0⟩).elapsed = 1 / 60
    ∧ ((1 : ℚ) / 60) ≠ 1 / 30 := by
  decide

/-- C8 (amended): every exported animation frame `t` is annotated with the
elapsed time `t * 1/60` seconds, hard-coded, for EVERY value of the `fps`
argument of `visualize_positions`; the annotation agrees with `t / fps` only
when `fps = 60` (the default). -/
theorem c8_time_display (enc : EncoderOutcome) (sde : Bool)
    (p0 : List (List Vec3)) (rest : List (List (List Vec3)))
    (colors : List String) (parents : List Int) (ccaf : Option (List (Option Nat)))
    (out : String) (frame_dir : Option String) (fps : Nat) (r : VisResult)
    (h0 : p0.length ≠ 0) (hj : (p0.headD []).length ≠ 0)
    (hmp4 : strEnds out ".mp4" = true)
    (hr : visualize_positions enc sde (p0 :: rest) colors parents ccaf (some out)
      frame_dir fps = r) :
    ∀ t, t < r.seqLength → (r.drawn.getD t ⟨[], 0⟩).elapsed = 1 / 60 * t := by
  subst hr
  intro t ht
  rw [export_seqLength enc sde p0 rest colors parents ccaf out frame_dir fps
    h0 hj hmp4] at ht
  rw [export_drawn enc sde p0 rest colors parents ccaf out frame_dir fps h0 hj hmp4]
  rw [List.getD_eq_getElem?_getD, List.getElem?_map, List.getElem?_range ht]
  rfl

/-- C8 witness: with `fps = 30`, frame 2 is annotated `2 * 1/60` seconds. -/
theorem c8_time_display_witness :
    ((visualize_positions (.exited 0) false
        [[[((0 : ℚ), (0 : ℚ), (0 : ℚ))], [((0 : ℚ), (0 : ℚ), (0 : ℚ))],
          [((0 : ℚ), (0 : ℚ), (0 : ℚ))]]]
        ["#1f77b4"] [-1, 0] none (some "a.mp4") none 30).drawn.getD 2
        ⟨[], 0⟩).elapsed = 1 / 60 * 2 :=
  c8_time_display (.exited 0) false
    [[((0 : ℚ), (0 : ℚ), (0 : ℚ))], [((0 : ℚ), (0 : ℚ), (0 : ℚ))],
      [((0 : ℚ), (0 : ℚ), (0 : ℚ))]] [] ["#1f77b4"] [-1, 0] none "a.mp4" none 30 _
    (by decide) (by decide) (by decide) rfl 2 (by decide)

/-- Reduction of `rotmat_pipeline` when every assert passes: the exact
argument record handed to `visualize_positions`. -/
theorem rotmat_pipeline_ok (cfg : VisualizerCfg) (seed prediction target : RSeq)
    (fname : String)
    (hdim : seed.dim = cfg.nInputJoints ∧ prediction.dim = cfg.nInputJoints
      ∧ target.dim = cfg.nInputJoints)
    (hlen : prediction.frames.length = target.frames.length)
    (hvt : is_valid_rotmat (seed.frames ++ target.frames) = true)
    (hvp : is_valid_rotmat ((seed.frames ++ prediction.frames).map
      fun fr => fr.map cfg.closest) = true) :
    rotmat_pipeline cfg seed prediction target fname
      = .ok { panels := [((seed.frames ++ prediction.frames).map
                  fun fr => fr.map cfg.closest).map
                    fun fr => (cfg.fkFrame fr).map flipYZ,
                (seed.frames ++ target.frames).map
                  fun fr => (cfg.fkFrame fr).map flipYZ]
              colors := [colorCycle.getD 0 "", colorCycle.getD 0 ""]
              ccaf := some [some seed.frames.length, none]
              out_file := cfg.video_dir.map fun d =>
                pathJoin (pathJoin d (cleanFname fname))
                  (cleanFname fname ++ "_skeleton.mp4")
              frame_dir := cfg.frames_dir.map fun d =>
                pathJoin (pathJoin d (cleanFname fname)) "frames_skeleton/" } := by
  have hvp2 : is_valid_rotmat ((seed.frames.map fun fr => fr.map cfg.closest)
      ++ prediction.frames.map fun fr => fr.map cfg.closest) = true := by
    rw [← List.map_append]
    exact hvp
  simp [rotmat_pipeline, hdim.1, hdim.2.1, hdim.2.2, hlen, hvt, hvp, hvp2]

/-- The C3 counterexample configuration: one major joint, identity closest
projection, trivial position solver (irrelevant here: the failure happens
before positions are computed). -/
def cfgC3 : VisualizerCfg :=
  { fk := { fkSparse := fun _ => [], fkFull := fun _ => [], parents := [] }
    video_dir := none
    frames_dir := some "f"
    is_sparse := true
    nInputJoints := 1
    closest := id }

/-- C3 counterexample inputs: an empty seed, a two-frame identity
prediction, and two targets — `targA` invalid at frame 0 only, `targB`
invalid at frame 1 only (an orthogonal reflection with determinant −1). -/
def seedC3 : RSeq := ⟨[], 1⟩

/-- Two identity prediction frames for the C3 counterexample. -/
def predC3 : RSeq := ⟨[[Mat3.idm], [Mat3.idm]], 1⟩

/-- A reflection: orthogonal but with determinant −1, hence not a valid
rotation. -/
def badRot : Mat3 := ⟨1, 0, 0, 0, 1, 0, 0, 0, -1⟩

/-- Target failing validation at frame 0 (frame 1 valid). -/
def targAC3 : RSeq := ⟨[[badRot], [Mat3.idm]], 1⟩

/-- Target failing validation at frame 1 (frame 0 valid). -/
def targBC3 : RSeq := ⟨[[Mat3.idm], [badRot]], 1⟩

unseal Rat.mul Rat.add Rat.sub Rat.inv in
/-- C3 counterexample: the claim says a target validation failure is
surfaced with a label identifying which sequence AND which frame failed.
But the two calls below — one with the target invalid at frame 0, one with
the target invalid at frame 1 — produce IDENTICAL errors, the fixed
AssertionError message naming only the sequence (render.py:181), so no
frame index can be recovered from the failure. -/
theorem c3_counterexample :
    visualize_rotmat .toolMissing false cfgC3 seedC3 predC3 targAC3 "x"
      = visualize_rotmat .toolMissing false cfgC3 seedC3 predC3 targBC3 "x"
    ∧ visualize_rotmat .toolMissing false cfgC3 seedC3 predC3 targAC3 "x"
      = .error (.assertFailed "target rotation matrices are not valid rotations")
    ∧ (targAC3.frames.getD 0 []).all isValidRotmat = false
    ∧ (targAC3.frames.getD 1 []).all isValidRotmat = true
    ∧ (targBC3.frames.getD 0 []).all isValidRotmat = true
    ∧ (targBC3.frames.getD 1 []).all isValidRotmat = false := by
  decide

/-- C3 (amended): in `visualize_rotmat` the predictions (with the seed
stitched in front) are corrected by the closest-rotation projection while
the targets are only checked and never corrected: an invalid target aborts
the call with the AssertionError labelled
`target rotation matrices are not valid rotations` — identifying the failing
sequence (target) but not the failing frame — before any position is
computed or any file event happens; when all checks pass, the target panel
positions are computed from the UNcorrected stitched target while the
prediction panel positions go through `get_closest_rotmat`. -/
theorem c3_target_check_policy (enc : EncoderOutcome) (sde : Bool)
    (cfg : VisualizerCfg) (seed prediction target : RSeq) (fname : String)
    (hdim : seed.dim = cfg.nInputJoints ∧ prediction.dim = cfg.nInputJoints
      ∧ target.dim = cfg.nInputJoints)
    (hlen : prediction.frames.length = target.frames.length) :
    (is_valid_rotmat (seed.frames ++ target.frames) = false →
      visualize_rotmat enc sde cfg seed prediction target fname
        = .error (.assertFailed "target rotation matrices are not valid rotations"))
    ∧ (∀ a, rotmat_pipeline cfg seed prediction target fname = .ok a →
        a.panels.getD 0 []
            = ((seed.frames ++ prediction.frames).map fun fr => fr.map cfg.closest).map
                (fun fr => (cfg.fkFrame fr).map flipYZ)
          ∧ a.panels.getD 1 []
              = (seed.frames ++ target.frames).map
                  fun fr => (cfg.fkFrame fr).map flipYZ) := by
  constructor
  · intro hv
    simp [visualize_rotmat, rotmat_pipeline, hdim.1, hdim.2.1, hdim.2.2, hlen, hv]
  · intro a ha
    by_cases hvt : is_valid_rotmat (seed.frames ++ target.frames) = true
    · by_cases hvp : is_valid_rotmat ((seed.frames ++ prediction.frames).map
        fun fr => fr.map cfg.closest) = true
      · rw [rotmat_pipeline_ok cfg seed prediction target fname hdim hlen hvt hvp] at ha
        injection ha with h
        subst h
        exact ⟨rfl, rfl⟩
      · have hvp2 : ¬ is_valid_rotmat ((seed.frames.map fun fr => fr.map cfg.closest)
            ++ prediction.frames.map fun fr => fr.map cfg.closest) = true := by
          rw [← List.map_append]
          exact hvp
        simp [rotmat_pipeline, hdim.1, hdim.2.1, hdim.2.2, hlen, hvt, hvp, hvp2] at ha
    · simp [rotmat_pipeline, hdim.1, hdim.2.1, hdim.2.2, hlen, hvt] at ha

unseal Rat.mul Rat.add Rat.sub Rat.inv in
/-- C3 witness: the invalid-target input from the counterexample
configuration aborts with exactly the target-sequence assertion error. -/
theorem c3_target_check_policy_witness :
    visualize_rotmat .toolMissing false cfgC3 seedC3 predC3 targAC3 "x"
      = .error (.assertFailed "target rotation matrices are not valid rotations") :=
  (c3_target_check_policy .toolMissing false cfgC3 seedC3 predC3 targAC3 "x"
    (by decide) (by decide)).1 (by decide)

/-- C9: `visualize_rotmat` stitches the seed in front of both prediction
and target before validation and position computation: when the checks
pass, the pipeline produces exactly two panels, both of length
`len(seed) + len(prediction)`; the cutover tuple is
`(len(seed), None)` — prediction panel cuts over at the seed boundary, the
target panel never changes color — and the seed portion of the prediction
panel also went through the closest-rotation projection. -/
theorem c9_stitching (cfg : VisualizerCfg) (seed prediction target : RSeq)
    (fname : String)
    (hdim : seed.dim = cfg.nInputJoints ∧ prediction.dim = cfg.nInputJoints
      ∧ target.dim = cfg.nInputJoints)
    (hlen : prediction.frames.length = target.frames.length)
    (hvt : is_valid_rotmat (seed.frames ++ target.frames) = true)
    (hvp : is_valid_rotmat ((seed.frames ++ prediction.frames).map
      fun fr => fr.map cfg.closest) = true) :
    ∃ a, rotmat_pipeline cfg seed prediction target fname = .ok a
      ∧ a.panels.length = 2
      ∧ (∀ p ∈ a.panels, p.length = seed.frames.length + prediction.frames.length)
      ∧ a.ccaf = some [some seed.frames.length, none]
      ∧ (a.panels.getD 0 []).take seed.frames.length
          = (seed.frames.map fun fr => fr.map cfg.closest).map
              (fun fr => (cfg.fkFrame fr).map flipYZ)
      ∧ a.panels.getD 1 []
          = (seed.frames ++ target.frames).map
              fun fr => (cfg.fkFrame fr).map flipYZ := by
  refine ⟨_, rotmat_pipeline_ok cfg seed prediction target fname hdim hlen hvt hvp,
    rfl, ?_, rfl, ?_, rfl⟩
  · intro p hp
    simp only [List.mem_cons, List.not_mem_nil, or_false] at hp
    rcases hp with h | h <;> subst h <;>
      simp [List.length_map, List.length_append, hlen]
  · show (((seed.frames ++ prediction.frames).map fun fr => fr.map cfg.closest).map
        fun fr => (cfg.fkFrame fr).map flipYZ).take seed.frames.length
      = (seed.frames.map fun fr => fr.map cfg.closest).map
          fun fr => (cfg.fkFrame fr).map flipYZ
    rw [List.map_append, List.map_append, List.take_left' (by simp)]

unseal Rat.mul Rat.add Rat.sub Rat.inv in
/-- C9 witness: a one-frame identity seed, prediction and target — both
panels have length 2, the cutover tuple is `(1, None)`. -/
theorem c9_stitching_witness :
    ∃ a, rotmat_pipeline cfgC3 ⟨[[Mat3.idm]], 1⟩ ⟨[[Mat3.idm]], 1⟩
        ⟨[[Mat3.idm]], 1⟩ "x" = .ok a
      ∧ a.panels.length = 2
      ∧ (∀ p ∈ a.panels, p.length = (⟨[[Mat3.idm]], 1⟩ : RSeq).frames.length
          + (⟨[[Mat3.idm]], 1⟩ : RSeq).frames.length)
      ∧ a.ccaf = some [some (⟨[[Mat3.idm]], 1⟩ : RSeq).frames.length, none]
      ∧ (a.panels.getD 0 []).take (⟨[[Mat3.idm]], 1⟩ : RSeq).frames.length
          = ((⟨[[Mat3.idm]], 1⟩ : RSeq).frames.map
              fun fr => fr.map cfgC3.closest).map
              (fun fr => (cfgC3.fkFrame fr).map flipYZ)
      ∧ a.panels.getD 1 []
          = ((⟨[[Mat3.idm]], 1⟩ : RSeq).frames
              ++ (⟨[[Mat3.idm]], 1⟩ : RSeq).frames).map
              fun fr => (cfgC3.fkFrame fr).map flipYZ :=
  c9_stitching cfgC3 ⟨[[Mat3.idm]], 1⟩ ⟨[[Mat3.idm]], 1⟩ ⟨[[Mat3.idm]], 1⟩ "x"
    (by decide) (by decide) (by decide) (by decide)

/-- C10: all three entry points — `visualize_rotmat`, `visualize_quat`,
`visualize_aa` — require `prediction.shape[0] == target.shape[0]`: when the
frame counts differ (and the trailing-dimension asserts pass), each call
fails immediately with the bare AssertionError, for EVERY encoder outcome,
directory state, position solver and axis-angle conversion — no truncation,
no position computation, no file event (the failing call returns no
`VisResult` at all). -/
theorem c10_length_assert (enc : EncoderOutcome) (sde : Bool)
    (cfg : VisualizerCfg) (aa2rot : (ℚ × ℚ × ℚ) → Mat3)
    (rseed rpred rtarg : RSeq) (qseed qpred qtarg : QSeq)
    (aseed apred atarg : ASeq) (fname : String)
    (hrdim : rseed.dim = cfg.nInputJoints ∧ rpred.dim = cfg.nInputJoints
      ∧ rtarg.dim = cfg.nInputJoints)
    (hrlen : rpred.frames.length ≠ rtarg.frames.length)
    (hqdim : qseed.dim = cfg.nInputJoints ∧ qpred.dim = cfg.nInputJoints
      ∧ qtarg.dim = cfg.nInputJoints)
    (hqlen : qpred.frames.length ≠ qtarg.frames.length)
    (hadim : aseed.dim = cfg.nInputJoints ∧ apred.dim = cfg.nInputJoints
      ∧ atarg.dim = cfg.nInputJoints)
    (halen : apred.frames.length ≠ atarg.frames.length) :
    visualize_rotmat enc sde cfg rseed rpred rtarg fname
        = .error (.assertFailed "")
      ∧ visualize_quat enc sde cfg qseed qpred qtarg fname
          = .error (.assertFailed "")
      ∧ visualize_aa aa2rot enc sde cfg aseed apred atarg fname
          = .error (.assertFailed "") := by
  refine ⟨?_, ?_, ?_⟩
  · simp [visualize_rotmat, rotmat_pipeline, hrdim.1, hrdim.2.1, hrdim.2.2, hrlen]
  · simp [visualize_quat, hqdim.1, hqdim.2.1, hqdim.2.2, hqlen]
  · simp [visualize_aa, hadim.1, hadim.2.1, hadim.2.2, halen]

/-- C10 witness: prediction with 1 frame and target with 0 frames — all
three representation entry points fail with the bare assertion error. -/
theorem c10_length_assert_witness :
    visualize_rotmat .toolMissing false cfgC3 ⟨[], 1⟩ ⟨[[Mat3.idm]], 1⟩
        ⟨[], 1⟩ "x" = .error (.assertFailed "")
      ∧ visualize_quat .toolMissing false cfgC3 ⟨[], 1⟩
          ⟨[[((1 : ℚ), (0 : ℚ), (0 : ℚ), (0 : ℚ))]], 1⟩ ⟨[], 1⟩ "x"
          = .error (.assertFailed "")
      ∧ visualize_aa (fun _ => Mat3.idm) .toolMissing false cfgC3 ⟨[], 1⟩
          ⟨[[((0 : ℚ), (0 : ℚ), (0 : ℚ))]], 1⟩ ⟨[], 1⟩ "x"
          = .error (.assertFailed "") :=
  c10_length_assert .toolMissing false cfgC3 (fun _ => Mat3.idm)
    ⟨[], 1⟩ ⟨[[Mat3.idm]], 1⟩ ⟨[], 1⟩
    ⟨[], 1⟩ ⟨[[((1 : ℚ), (0 : ℚ), (0 : ℚ), (0 : ℚ))]], 1⟩ ⟨[], 1⟩
    ⟨[], 1⟩ ⟨[[((0 : ℚ), (0 : ℚ), (0 : ℚ))]], 1⟩ ⟨[], 1⟩ "x"
    (by decide) (by decide) (by decide) (by decide) (by decide) (by decide)

end RenderPy
